import Mathlib

/-!
# geminimail: session registry and the `/new` and `/mail` handlers

A shallow embedding of `main.go`.  The repository is one file: a mutex-guarded
map from token strings to `*tmm.Session` pointers (`SessionManager`) and two
Gemini handlers that drive it.  Everything the handlers call outside the file
(the UUID generator, the `tmm` mailbox provider, time formatting) is collected
in a `Provider` record whose operations thread an explicit world state, so
every statement below holds for every behaviour of those collaborators.

A handler run is a function from a `State` (registry, world, trace so far) to a
`State`; the trace records, in program order, every mutex operation, map
access, provider call, log line and response write the Go code performs.
-/

namespace Geminimail

/-! ## Data model -/

/-- A Go pointer `*tmm.Session`: either `nil` or a reference to a session. -/
inductive Ptr (S : Type) where
  | nil : Ptr S
  | ref (s : S) : Ptr S
  deriving DecidableEq, Repr

/-- A `uuid.UUID` of `github.com/gofrs/uuid`: an array of sixteen bytes. -/
structure UUID where
  bytes : Fin 16 → Fin 256

/-- The value `uuid.Nil`, the zero value of the array type. -/
def UUID.Nil : UUID := ⟨fun _ => 0⟩

/-- One lower-case hexadecimal digit, as `encoding/hex` writes it. -/
def hexDigit (n : Nat) : Char :=
  "0123456789abcdef".toList.getD n '0'

/-- Two hexadecimal digits for one byte, high nibble first. -/
def hexByte (b : Fin 256) : String :=
  String.mk [hexDigit (b.val / 16), hexDigit (b.val % 16)]

/-- The method `UUID.String`: the canonical `8-4-4-4-12` rendering, five
groups of 4, 2, 2, 2 and 6 bytes in lower-case hexadecimal, joined by `-`. -/
def UUID.String (u : UUID) : String :=
  hexByte (u.bytes 0) ++ hexByte (u.bytes 1) ++ hexByte (u.bytes 2) ++ hexByte (u.bytes 3)
    ++ "-" ++ hexByte (u.bytes 4) ++ hexByte (u.bytes 5)
    ++ "-" ++ hexByte (u.bytes 6) ++ hexByte (u.bytes 7)
    ++ "-" ++ hexByte (u.bytes 8) ++ hexByte (u.bytes 9)
    ++ "-" ++ hexByte (u.bytes 10) ++ hexByte (u.bytes 11) ++ hexByte (u.bytes 12)
    ++ hexByte (u.bytes 13) ++ hexByte (u.bytes 14) ++ hexByte (u.bytes 15)

/-- The fields of a `tmm.Message` that the `/mail` handler reads. -/
structure Message (T : Type) where
  Sender : String
  SentDate : T
  Subject : String
  Plaintext : String

/-- The status code `gemini.StatusRedirect`. -/
def StatusRedirect : Nat := 30

/-- The status code `gemini.StatusCGIError`. -/
def StatusCGIError : Nat := 42

/-- Everything `main.go` consumes from outside the file, for sessions of type
`S`.  A Go `error` is an `Option String` (`none` is the nil error); each call
may change the world. -/
structure Provider (S : Type) where
  World : Type
  Time : Type
  /-- The call `uuid.NewV4()`. -/
  NewV4 : World → (UUID × Option String) × World
  /-- The call `tmm.New()`. -/
  New : World → (Ptr S × Option String) × World
  /-- The method `(*tmm.Session).Expired`. -/
  Expired : S → World → Bool × World
  /-- The method `(*tmm.Session).Address`. -/
  Address : S → World → String × World
  /-- The method `(*tmm.Session).Messages`. -/
  Messages : S → World → (List (Message Time) × Option String) × World
  /-- The method `(*tmm.Session).Renew`. -/
  Renew : S → World → (Bool × Option String) × World
  /-- The method `(*tmm.Session).ExpiresAt`. -/
  ExpiresAt : S → World → Time × World
  /-- The expression `t.UTC().Format(time.RFC822)`. -/
  RFC822UTC : Time → String

/-- What a handler run does, in program order. -/
inductive Event (S : Type) where
  /-- The mutex operation `s.mu.Lock()`. -/
  | Lock : Event S
  /-- The mutex operation `s.mu.Unlock()` (deferred, so it runs last). -/
  | Unlock : Event S
  /-- The map read `s.store[key]`. -/
  | MapRead (key : String) : Event S
  /-- The map write `s.store[key] = sess`. -/
  | MapWrite (key : String) (sess : Ptr S) : Event S
  /-- The map deletion `delete(s.store, key)`. -/
  | MapDelete (key : String) : Event S
  | NewV4 : Event S
  | New : Event S
  | Expired (s : S) : Event S
  | Address (s : S) : Event S
  | Messages (s : S) : Event S
  | Renew (s : S) : Event S
  | ExpiresAt (s : S) : Event S
  /-- A line written by `log.Printf`. -/
  | Log (msg : String) : Event S
  /-- The call `rw.WriteHeader(status, target)`. -/
  | WriteHeader (status : Nat) (target : String) : Event S
  /-- A write of body text to the response (`fmt.Fprint(rw, ...)`). -/
  | Write (text : String) : Event S
  /-- The call `s.Expired()` made with `s` a nil `*tmm.Session`.  What `tmm`
  does with a nil receiver is outside `main.go`; the run is followed no
  further. -/
  | NilDeref : Event S
  deriving DecidableEq

/-! ## The session registry -/

/-- The struct `SessionManager`: the map `store`.  The mutex `mu` is free
whenever no method is running, so it carries no state between calls; its
`Lock`/`Unlock` operations are recorded in the trace. -/
structure SessionManager (S : Type) where
  store : String → Option (Ptr S)

/-- The global `sessions`: an empty map. -/
def SessionManager.empty (S : Type) : SessionManager S := ⟨fun _ => none⟩

/-- The result of `SessionManager.Get`: `sess, ok := s.store[key]`.  A missing
key gives the zero value `nil` and `false`. -/
def SessionManager.Get {S : Type} (s : SessionManager S) (key : String) : Ptr S × Bool :=
  match s.store key with
  | some sess => (sess, true)
  | none => (Ptr.nil, false)

/-- The effect of `SessionManager.Set`: `s.store[key] = sess`. -/
def SessionManager.Set {S : Type} (s : SessionManager S) (key : String) (sess : Ptr S) :
    SessionManager S :=
  ⟨fun k => if k = key then some sess else s.store k⟩

/-- The effect of `SessionManager.Delete`: `delete(s.store, key)`. -/
def SessionManager.Delete {S : Type} (s : SessionManager S) (key : String) :
    SessionManager S :=
  ⟨fun k => if k = key then none else s.store k⟩

/-- The state a handler runs in: the global registry, the outside world and
the trace of what has been done so far. -/
structure State {S : Type} (P : Provider S) where
  sessions : SessionManager S
  world : P.World
  trace : List (Event S)

/-- Append events to the trace. -/
def State.emit {S : Type} {P : Provider S} (st : State P) (es : List (Event S)) : State P :=
  { st with trace := st.trace ++ es }

/-- A call `sessions.Get(key)`: lock, read the map, unlock (deferred). -/
def State.Get {S : Type} {P : Provider S} (st : State P) (key : String) :
    (Ptr S × Bool) × State P :=
  (st.sessions.Get key, st.emit [Event.Lock, Event.MapRead key, Event.Unlock])

/-- A call `sessions.Set(key, sess)`: lock, write the map, unlock (deferred). -/
def State.Set {S : Type} {P : Provider S} (st : State P) (key : String) (sess : Ptr S) :
    State P :=
  { st with
    sessions := st.sessions.Set key sess
    trace := st.trace ++ [Event.Lock, Event.MapWrite key sess, Event.Unlock] }

/-- A call `sessions.Delete(key)`: lock, delete from the map, unlock (deferred). -/
def State.Delete {S : Type} {P : Provider S} (st : State P) (key : String) : State P :=
  { st with
    sessions := st.sessions.Delete key
    trace := st.trace ++ [Event.Lock, Event.MapDelete key, Event.Unlock] }

/-! ## Rendering helpers -/

/-- The predicate `unicode.IsSpace`: the code points with the Unicode
White_Space property. -/
def IsSpace (r : Char) : Bool :=
  let n := r.toNat
  (0x09 ≤ n && n ≤ 0x0d) || n == 0x20 || n == 0x85 || n == 0xa0 || n == 0x1680
    || (0x2000 ≤ n && n ≤ 0x200a) || n == 0x2028 || n == 0x2029 || n == 0x202f
    || n == 0x205f || n == 0x3000

/-- The function `strings.TrimSpace`: drop leading and trailing white space. -/
def TrimSpace (s : String) : String :=
  String.mk ((s.toList.dropWhile IsSpace).reverse.dropWhile IsSpace).reverse

/-- The words "leading and trailing white space trimmed": `t` is `s` without a
prefix and a suffix made of white space only, and `t` neither starts nor ends
with white space. -/
def IsTrimOf (t s : String) : Prop :=
  ∃ pre suf : List Char,
    s.data = pre ++ t.data ++ suf ∧
    (∀ c ∈ pre, IsSpace c = true) ∧ (∀ c ∈ suf, IsSpace c = true) ∧
    (∀ c, t.data.head? = some c → IsSpace c = false) ∧
    (∀ c, t.data.getLast? = some c → IsSpace c = false)

/-- The function `strings.Join`. -/
def Join : List String → String → String
  | [], _ => ""
  | [a], _ => a
  | a :: b :: rest, sep => a ++ sep ++ Join (b :: rest) sep

/-- The body of the loop over `mail`: the four `out.WriteString` calls for one
message, returned as `out.String()`. -/
def renderMessage {S : Type} (P : Provider S) (m : Message P.Time) : String :=
  ("Sender: " ++ m.Sender ++ "\n")
    ++ ("At: " ++ P.RFC822UTC m.SentDate ++ "\n")
    ++ ("Subject: " ++ m.Subject ++ "\n")
    ++ ("Body: " ++ TrimSpace m.Plaintext ++ "\n")

/-! ## The `/new` handler -/

/-- The error block that follows both `uuid.NewV4()` and `tmm.New()`:
`if err != nil { log.Printf("error: %s", err); rw.WriteHeader(...) }`.  The
block has no `return`: the handler goes on after it. -/
def reportError {S : Type} {P : Provider S} (err : Option String) (st : State P) : State P :=
  match err with
  | some e =>
    st.emit [Event.Log ("error: " ++ e), Event.WriteHeader StatusCGIError "Unexpected error"]
  | none => st

/-- The handler registered for `/new` (lines 70-90).  Neither error branch
ends in a `return`, so control always reaches `sessions.Set` and the final
`rw.WriteHeader`. -/
def newHandler {S : Type} (P : Provider S) (st : State P) : State P :=
  -- uuid, err := uuid.NewV4()
  let r1 := P.NewV4 st.world
  let uuid := r1.1.1
  let st1 : State P := { st with world := r1.2, trace := st.trace ++ [Event.NewV4] }
  -- if err != nil { log.Printf(...); rw.WriteHeader(gemini.StatusCGIError, ...) }
  let st2 := reportError r1.1.2 st1
  -- s, err := tmm.New()
  let r2 := P.New r1.2
  let s := r2.1.1
  let st3 : State P := { st2 with world := r2.2, trace := st2.trace ++ [Event.New] }
  -- if err != nil { log.Printf(...); rw.WriteHeader(gemini.StatusCGIError, ...) }
  let st4 := reportError r2.1.2 st3
  -- sessions.Set(uuid.String(), s)
  let st5 := st4.Set uuid.String s
  -- rw.WriteHeader(gemini.StatusRedirect, fmt.Sprintf("/mail?t=%s", uuid.String()))
  st5.emit [Event.WriteHeader StatusRedirect ("/mail?t=" ++ uuid.String)]

/-! ## The `/mail` handler -/

/-- The part of a `gemini.Request` the handler reads: `r.URL.Query()`, a map
from a key to the list of its values. -/
structure Request where
  Query : String → Option (List String)

/-- The tail of the `/mail` handler once `s` is a non-nil session found under
`token` (lines 113-161). -/
def viewSession {S : Type} (P : Provider S) (token : String) (s : S) (st : State P) : State P :=
  -- if s.Expired() { redirect; sessions.Delete(tokens[0]); return }
  let r1 := P.Expired s st.world
  let st1 : State P := { st with world := r1.2, trace := st.trace ++ [Event.Expired s] }
  if r1.1 then
    (st1.emit [Event.WriteHeader StatusRedirect "/"]).Delete token
  else
    -- addr := s.Address()
    let r2 := P.Address s st1.world
    let addr := r2.1
    let st2 : State P := { st1 with world := r2.2, trace := st1.trace ++ [Event.Address s] }
    -- mail, err := s.Messages()
    let r3 := P.Messages s st2.world
    let mail := r3.1.1
    let st3 : State P := { st2 with world := r3.2, trace := st2.trace ++ [Event.Messages s] }
    if r3.1.2.isSome then
      (st3.emit [Event.WriteHeader StatusRedirect "/"]).Delete token
    else
      -- ok, err = s.Renew()
      let r4 := P.Renew s st3.world
      let st4 : State P := { st3 with world := r4.2, trace := st3.trace ++ [Event.Renew s] }
      -- if !ok || err != nil { redirect; sessions.Delete(tokens[0]); return }
      if !r4.1.1 || r4.1.2.isSome then
        (st4.emit [Event.WriteHeader StatusRedirect "/"]).Delete token
      else
        -- output := []string{}; for _, m := range mail { ... }
        let output := mail.map (renderMessage P)
        let st5 := st4.emit [Event.Write "# Mailbox\n\n",
                             Event.Write ("Your address is: " ++ addr ++ ".\n\n")]
        -- s.ExpiresAt().UTC().Format(time.RFC822)
        let r5 := P.ExpiresAt s st5.world
        let st6 : State P :=
          { st5 with world := r5.2, trace := st5.trace ++ [Event.ExpiresAt s] }
        let st7 := st6.emit [Event.Write ("It will expire on " ++ P.RFC822UTC r5.1 ++ ".\n\n"),
                             Event.Write "## Messages\n\n"]
        let st8 :=
          if output.length > 0 then
            st7.emit [Event.Write "```\n", Event.Write (Join output "-----\n"),
                      Event.Write "```\n"]
          else
            st7.emit [Event.Write "Nothing here yet.\n\n"]
        st8.emit [Event.Write ("=> mail?t=" ++ token ++ " Reload this page")]

/-- The handler registered for `/mail` (lines 92-162). -/
def mailHandler {S : Type} (P : Provider S) (r : Request) (st : State P) : State P :=
  -- values := r.URL.Query(); tokens, ok := values["t"]
  match r.Query "t" with
  | none => st.emit [Event.WriteHeader StatusRedirect "/"]
  | some [] =>
    -- len(tokens) < 1
    st.emit [Event.WriteHeader StatusRedirect "/"]
  | some (token :: _) =>
    -- s, ok := sessions.Get(tokens[0])
    let g := st.Get token
    if !g.1.2 then
      g.2.emit [Event.WriteHeader StatusRedirect "/"]
    else
      match g.1.1 with
      | Ptr.nil => g.2.emit [Event.NilDeref]
      | Ptr.ref s => viewSession P token s g.2

/-! ## Reading a trace -/

/-- The `WriteHeader` calls of a trace, in order. -/
def headers {S : Type} : List (Event S) → List (Nat × String)
  | [] => []
  | Event.WriteHeader status target :: es => (status, target) :: headers es
  | _ :: es => headers es

/-- The body text written to the response, in order. -/
def writes {S : Type} : List (Event S) → List String
  | [] => []
  | Event.Write text :: es => text :: writes es
  | _ :: es => writes es

/-- Whether an event is a method call on a session (a nil dereference
included). -/
def Event.isSessionCall {S : Type} : Event S → Bool
  | Event.Expired _ => true
  | Event.Address _ => true
  | Event.Messages _ => true
  | Event.Renew _ => true
  | Event.ExpiresAt _ => true
  | Event.NilDeref => true
  | _ => false

/-- Whether an event is an access to the registry map. -/
def Event.isMapAccess {S : Type} : Event S → Bool
  | Event.MapRead _ => true
  | Event.MapWrite _ _ => true
  | Event.MapDelete _ => true
  | _ => false

/-- Whether an event is a call to the external provider (`uuid.NewV4`,
`tmm.New` or a session method). -/
def Event.isProviderCall {S : Type} : Event S → Bool
  | Event.NewV4 => true
  | Event.New => true
  | Event.Expired _ => true
  | Event.Address _ => true
  | Event.Messages _ => true
  | Event.Renew _ => true
  | Event.ExpiresAt _ => true
  | _ => false

/-- A fresh run: the given registry and world, nothing done yet. -/
def State.init {S : Type} {P : Provider S} (sm : SessionManager S) (w : P.World) : State P :=
  ⟨sm, w, []⟩

/-- Concatenation of a list of strings, left to right. -/
def concatAll (l : List String) : String :=
  l.foldr (fun x acc => x ++ acc) ""

/-- The page body: the written texts in order, concatenated. -/
def body {S : Type} (tr : List (Event S)) : String :=
  concatAll (writes tr)

/-- The session method calls of a trace, in order. -/
def sessionCalls {S : Type} (tr : List (Event S)) : List (Event S) :=
  tr.filter Event.isSessionCall

/-! ## Reachable registries -/

/-- The registries the running server can hold: the empty one, and whatever a
`/new` or a `/mail` request leaves behind, in any world and for any request. -/
inductive Reachable {S : Type} (P : Provider S) : SessionManager S → Prop where
  | empty : Reachable P (SessionManager.empty S)
  | new (sm : SessionManager S) (w : P.World) :
      Reachable P sm → Reachable P (newHandler P (State.init sm w)).sessions
  | mail (sm : SessionManager S) (r : Request) (w : P.World) :
      Reachable P sm → Reachable P (mailHandler P r (State.init sm w)).sessions

/-! ## The mutex -/

/-- The lock discipline along the trace of one request; `held` says whether
the request holds `mu`.  `Lock` needs the mutex not held, `Unlock` needs it
held, a map access happens only while it is held, every other event (provider
calls, logging, response writes) only while it is not, and the request ends
with the mutex released. -/
def lockDiscipline {S : Type} : Bool → List (Event S) → Bool
  | held, [] => !held
  | held, Event.Lock :: es => !held && lockDiscipline true es
  | held, Event.Unlock :: es => held && lockDiscipline false es
  | held, e :: es => (e.isMapAccess == held) && lockDiscipline held es

/-- A concurrent execution: the events of several requests in their global
order, each tagged with the number of the request performing it. -/
abbrev Schedule (S : Type) := List (Nat × Event S)

/-- The events of request `i` in a schedule, in order. -/
def Schedule.thread {S : Type} (σ : Schedule S) (i : Nat) : List (Event S) :=
  (σ.filter (fun x => x.1 == i)).map Prod.snd

/-- The semantics of `sync.Mutex` along a schedule: a `Lock` goes through only
when no request owns the mutex, and makes the caller the owner; `Unlock`
frees it. -/
def mutexRespected {S : Type} : Option Nat → Schedule S → Bool
  | _, [] => true
  | owner, (i, Event.Lock) :: σ => owner.isNone && mutexRespected (some i) σ
  | _, (_, Event.Unlock) :: σ => mutexRespected none σ
  | owner, _ :: σ => mutexRespected owner σ

/-- Mutual exclusion along a schedule: every map access is made by the request
that owns the mutex, and no request calls the external provider while it owns
the mutex. -/
def exclusive {S : Type} : Option Nat → Schedule S → Bool
  | _, [] => true
  | _, (i, Event.Lock) :: σ => exclusive (some i) σ
  | _, (_, Event.Unlock) :: σ => exclusive none σ
  | owner, (i, e) :: σ =>
    (!e.isMapAccess || owner == some i) && (!e.isProviderCall || owner != some i)
      && exclusive owner σ

/-! ## A concrete provider for examples -/

/-- The UUID the example provider generates in world `w`. -/
def demoUUID (w : Nat) : UUID :=
  ⟨fun i => ⟨(i.val + 17 * w) % 256, Nat.mod_lt _ (by decide)⟩⟩

/-- An example provider.  Sessions are numbers: session `1` has expired,
session `2` fails to list its messages, session `3` declines renewal, session
`4` holds two messages and every other session is healthy and empty.  The
world is a call counter; the flags make `uuid.NewV4` and `tmm.New` fail. -/
abbrev demo (uuidFails newFails : Bool) : Provider Nat where
  World := Nat
  Time := Nat
  NewV4 w := if uuidFails then ((UUID.Nil, some "no entropy"), w + 1)
             else ((demoUUID w, none), w + 1)
  New w := if newFails then ((Ptr.nil, some "provider down"), w + 1)
           else ((Ptr.ref w, none), w + 1)
  Expired s w := (s == 1, w + 1)
  Address s w := ("box" ++ toString s ++ "@example.org", w + 1)
  Messages s w :=
    if s == 2 then (([], some "fetch failed"), w + 1)
    else if s == 4 then
      (([⟨"alice@example.org", 10, "Hi", "  hello \n"⟩,
         ⟨"bob@example.org", 20, "Re: Hi", "-----\n"⟩], none), w + 1)
    else (([], none), w + 1)
  Renew s w := ((s != 3, none), w + 1)
  ExpiresAt _ w := (w + 600, w + 1)
  RFC822UTC t := "T+" ++ toString t

/-- An example schedule of two concurrent requests: request `0` is a `/new`
in world `3`, request `1` a `/mail?t=x` on the empty registry; the lookup of
request `1` runs between the two provider calls of request `0`. -/
def demoSchedule : Schedule Nat :=
  [(0, Event.NewV4), (1, Event.Lock), (0, Event.New), (1, Event.MapRead "x"),
   (1, Event.Unlock), (0, Event.Lock),
   (0, Event.MapWrite (demoUUID 3).String (Ptr.ref 4)), (0, Event.Unlock),
   (1, Event.WriteHeader StatusRedirect "/"),
   (0, Event.WriteHeader StatusRedirect ("/mail?t=" ++ (demoUUID 3).String))]

/-! ## Registry lemmas -/

theorem Get_of_store_some {S : Type} (sm : SessionManager S) (k : String) (p : Ptr S)
    (h : sm.store k = some p) : sm.Get k = (p, true) := by
  simp [SessionManager.Get, h]

theorem Get_of_store_none {S : Type} (sm : SessionManager S) (k : String)
    (h : sm.store k = none) : sm.Get k = (Ptr.nil, false) := by
  simp [SessionManager.Get, h]

theorem store_of_Get_true {S : Type} (sm : SessionManager S) (k : String) (p : Ptr S)
    (h : sm.Get k = (p, true)) : sm.store k = some p := by
  unfold SessionManager.Get at h
  cases hs : sm.store k with
  | none => simp [hs] at h
  | some q =>
    simp [hs] at h
    simp [h]

theorem store_of_Get_false {S : Type} (sm : SessionManager S) (k : String)
    (h : (sm.Get k).2 = false) : sm.store k = none := by
  unfold SessionManager.Get at h
  cases hs : sm.store k with
  | none => rfl
  | some q => simp [hs] at h

theorem Get_Set_same {S : Type} (sm : SessionManager S) (k : String) (p : Ptr S) :
    (sm.Set k p).Get k = (p, true) := by
  simp [SessionManager.Get, SessionManager.Set]

theorem Get_Set_other {S : Type} (sm : SessionManager S) (k k2 : String) (p : Ptr S)
    (h : k2 ≠ k) : (sm.Set k p).Get k2 = sm.Get k2 := by
  simp [SessionManager.Get, SessionManager.Set, h]

theorem Get_Delete_same {S : Type} (sm : SessionManager S) (k : String) :
    (sm.Delete k).Get k = (Ptr.nil, false) := by
  simp [SessionManager.Get, SessionManager.Delete]

theorem Get_Delete_other {S : Type} (sm : SessionManager S) (k k2 : String)
    (h : k2 ≠ k) : (sm.Delete k).Get k2 = sm.Get k2 := by
  simp [SessionManager.Get, SessionManager.Delete, h]

/-! ## Claims about the registry -/

/-- C8: after `Set(A, s)`, `Get(B)` returns `(s, found)` when `B = A` and exactly
what `Get(B)` returned before the `Set` when `B ≠ A`; in particular a token
`B ≠ A` that was absent before is still not found, so the session registered
under `A` is not returned for it. -/
theorem Set_then_Get_isolated {S : Type} (sm : SessionManager S) (A B : String) (s : Ptr S) :
    (sm.Set A s).Get B = (if B = A then (s, true) else sm.Get B) ∧
    (B ≠ A → sm.Get B = (Ptr.nil, false) → (sm.Set A s).Get B = (Ptr.nil, false)) := by
  constructor
  · by_cases h : B = A
    · subst h
      simp [Get_Set_same]
    · simp [h, Get_Set_other]
  · intro h hB
    rw [Get_Set_other sm A B s h, hB]

theorem Set_then_Get_isolated_witness :
    ("b" ≠ "a" ∧ (SessionManager.empty Nat).Get "b" = (Ptr.nil, false)) ∧
    ((SessionManager.empty Nat).Set "a" (Ptr.ref 7)).Get "b" = (Ptr.nil, false) :=
  ⟨⟨by decide, by decide⟩,
   (Set_then_Get_isolated (SessionManager.empty Nat) "a" "b" (Ptr.ref 7)).2
     (by decide) (by decide)⟩

/-! ## The `/new` handler -/

theorem reportError_sessions {S : Type} {P : Provider S} (err : Option String)
    (st : State P) : (reportError err st).sessions = st.sessions := by
  cases err <;> rfl

theorem reportError_world {S : Type} {P : Provider S} (err : Option String)
    (st : State P) : (reportError err st).world = st.world := by
  cases err <;> rfl

/-- Whatever the generator and the provider answer, `/new` ends by storing the
returned pointer under the string form of the returned UUID. -/
theorem newHandler_sessions {S : Type} (P : Provider S) (st : State P) :
    (newHandler P st).sessions
      = st.sessions.Set (P.NewV4 st.world).1.1.String (P.New (P.NewV4 st.world).2).1.1 := by
  simp [newHandler, State.emit, State.Set, reportError_sessions]

/-- C3: when the generator returns `u` and the provider returns `s`, both
without error, `/new` writes exactly one response header, the redirect to
`"/mail?t=" ++ u.String()`, writes no body, and leaves the registry equal to
the old one with `u.String()` mapped to `s`: `Get` on that token returns
`(s, found)` and `Get` on every other token is as before. -/
theorem newHandler_success {S : Type} (P : Provider S) (sm : SessionManager S)
    (w w1 w2 : P.World) (u : UUID) (s : Ptr S)
    (hu : P.NewV4 w = ((u, none), w1)) (hs : P.New w1 = ((s, none), w2)) :
    (newHandler P (State.init sm w)).trace
      = [Event.NewV4, Event.New, Event.Lock, Event.MapWrite u.String s, Event.Unlock,
         Event.WriteHeader StatusRedirect ("/mail?t=" ++ u.String)] ∧
    headers (newHandler P (State.init sm w)).trace
      = [(StatusRedirect, "/mail?t=" ++ u.String)] ∧
    writes (newHandler P (State.init sm w)).trace = [] ∧
    (newHandler P (State.init sm w)).sessions = sm.Set u.String s ∧
    (newHandler P (State.init sm w)).sessions.Get u.String = (s, true) ∧
    (∀ k, k ≠ u.String → (newHandler P (State.init sm w)).sessions.Get k = sm.Get k) := by
  have ht : (newHandler P (State.init sm w)).trace
      = [Event.NewV4, Event.New, Event.Lock, Event.MapWrite u.String s, Event.Unlock,
         Event.WriteHeader StatusRedirect ("/mail?t=" ++ u.String)] := by
    simp [newHandler, State.init, State.emit, State.Set, reportError, hu, hs]
  have hsess : (newHandler P (State.init sm w)).sessions = sm.Set u.String s := by
    rw [newHandler_sessions]
    simp [State.init, hu, hs]
  refine ⟨ht, ?_, ?_, hsess, ?_, ?_⟩
  · rw [ht]; simp [headers]
  · rw [ht]; simp [writes]
  · rw [hsess]; exact Get_Set_same sm _ s
  · intro k hk
    rw [hsess]; exact Get_Set_other sm _ k s hk

theorem newHandler_success_witness :
    ((demo false false).NewV4 (3 : Nat) = ((demoUUID 3, none), (4 : Nat))
      ∧ (demo false false).New (4 : Nat) = ((Ptr.ref 4, none), (5 : Nat))) ∧
    (newHandler (demo false false) (State.init (SessionManager.empty Nat) (3 : Nat))).sessions
      = (SessionManager.empty Nat).Set (demoUUID 3).String (Ptr.ref 4) :=
  ⟨⟨rfl, rfl⟩,
   (newHandler_success (demo false false) (SessionManager.empty Nat) (3 : Nat) (4 : Nat)
      (5 : Nat) (demoUUID 3) (Ptr.ref 4) rfl rfl).2.2.2.1⟩

/-! ## The `/mail` handler -/

/-- A request whose first `t` value is registered to a non-nil session runs
`viewSession` after the `Get`. -/
theorem mailHandler_registered {S : Type} (P : Provider S) (sm : SessionManager S)
    (w : P.World) (r : Request) (t : String) (rest : List String) (s : S)
    (hq : r.Query "t" = some (t :: rest)) (hreg : sm.Get t = (Ptr.ref s, true)) :
    mailHandler P r (State.init sm w)
      = viewSession P t s ⟨sm, w, [Event.Lock, Event.MapRead t, Event.Unlock]⟩ := by
  simp [mailHandler, hq, State.Get, State.init, State.emit, hreg]

/-- A request whose first `t` value is not registered is redirected after the
`Get`, and nothing else happens. -/
theorem mailHandler_not_found {S : Type} (P : Provider S) (sm : SessionManager S)
    (w : P.World) (r : Request) (t : String) (rest : List String)
    (hq : r.Query "t" = some (t :: rest)) (hreg : sm.store t = none) :
    mailHandler P r (State.init sm w)
      = ⟨sm, w, [Event.Lock, Event.MapRead t, Event.Unlock,
                 Event.WriteHeader StatusRedirect "/"]⟩ := by
  simp [mailHandler, hq, State.Get, State.init, State.emit, Get_of_store_none sm t hreg]

/-- C4: for a token `t` registered to a session whose `Expired()` is true, the
`/mail` handler answers with exactly a redirect to `"/"` and no body, calls
neither `Messages()` nor `Renew()` (the only session call is `Expired()`), and
leaves the registry with `t` deleted: `Get(t)` is not-found and every other
token is as before. -/
theorem mailHandler_expired {S : Type} (P : Provider S) (sm : SessionManager S)
    (w : P.World) (r : Request) (t : String) (rest : List String) (s : S)
    (hq : r.Query "t" = some (t :: rest)) (hreg : sm.Get t = (Ptr.ref s, true))
    (hexp : (P.Expired s w).1 = true) :
    (mailHandler P r (State.init sm w)).trace
      = [Event.Lock, Event.MapRead t, Event.Unlock, Event.Expired s,
         Event.WriteHeader StatusRedirect "/",
         Event.Lock, Event.MapDelete t, Event.Unlock] ∧
    headers (mailHandler P r (State.init sm w)).trace = [(StatusRedirect, "/")] ∧
    writes (mailHandler P r (State.init sm w)).trace = [] ∧
    (∀ s2, Event.Messages s2 ∉ (mailHandler P r (State.init sm w)).trace
         ∧ Event.Renew s2 ∉ (mailHandler P r (State.init sm w)).trace) ∧
    (mailHandler P r (State.init sm w)).sessions = sm.Delete t ∧
    (mailHandler P r (State.init sm w)).sessions.Get t = (Ptr.nil, false) ∧
    (∀ k, k ≠ t → (mailHandler P r (State.init sm w)).sessions.Get k = sm.Get k) := by
  rw [mailHandler_registered P sm w r t rest s hq hreg]
  have hv : viewSession P t s ⟨sm, w, [Event.Lock, Event.MapRead t, Event.Unlock]⟩
      = ⟨sm.Delete t, (P.Expired s w).2,
         [Event.Lock, Event.MapRead t, Event.Unlock, Event.Expired s,
          Event.WriteHeader StatusRedirect "/",
          Event.Lock, Event.MapDelete t, Event.Unlock]⟩ := by
    simp [viewSession, hexp, State.emit, State.Delete]
  rw [hv]
  refine ⟨rfl, by simp [headers], by simp [writes], ?_, rfl, ?_, ?_⟩
  · intro s2; simp
  · exact Get_Delete_same sm t
  · intro k hk; exact Get_Delete_other sm t k hk

theorem mailHandler_expired_witness :
    ((fun k => if k = "t" then some ["tok"] else none) "t" = some ("tok" :: [])
      ∧ ((SessionManager.empty Nat).Set "tok" (Ptr.ref 1)).Get "tok" = (Ptr.ref 1, true)
      ∧ ((demo false false).Expired 1 (0 : Nat)).1 = true) ∧
    (mailHandler (demo false false) ⟨fun k => if k = "t" then some ["tok"] else none⟩
        (State.init ((SessionManager.empty Nat).Set "tok" (Ptr.ref 1)) (0 : Nat))).sessions.Get
      "tok" = (Ptr.nil, false) :=
  ⟨⟨by decide, by decide, by decide⟩,
   (mailHandler_expired (demo false false) ((SessionManager.empty Nat).Set "tok" (Ptr.ref 1))
      (0 : Nat) ⟨fun k => if k = "t" then some ["tok"] else none⟩ "tok" [] 1
      (by decide) (by decide) (by decide)).2.2.2.2.2.1⟩

/-- C5: for a token `t` registered to an unexpired session, if `Messages()`
returns an error, or `Messages()` succeeds and `Renew()` returns false or an
error, the `/mail` handler answers with exactly a redirect to `"/"` and no
body and deletes `t` (`Get(t)` is then not-found, other tokens unchanged); a
second `/mail` request with the same `t`, in any world, takes the not-found
branch: one `Get`, a redirect to `"/"`, no session call, registry unchanged. -/
theorem mailHandler_provider_failure {S : Type} (P : Provider S) (sm : SessionManager S)
    (w w1 w2 w3 w4 : P.World) (r : Request) (t : String) (rest : List String) (s : S)
    (a : String) (ms : List (Message P.Time)) (em er : Option String) (ok : Bool)
    (hq : r.Query "t" = some (t :: rest)) (hreg : sm.Get t = (Ptr.ref s, true))
    (hE : P.Expired s w = (false, w1)) (hA : P.Address s w1 = (a, w2))
    (hM : P.Messages s w2 = ((ms, em), w3)) (hR : P.Renew s w3 = ((ok, er), w4))
    (hfail : em.isSome = true ∨ (em = none ∧ (ok = false ∨ er.isSome = true))) :
    headers (mailHandler P r (State.init sm w)).trace = [(StatusRedirect, "/")] ∧
    writes (mailHandler P r (State.init sm w)).trace = [] ∧
    (mailHandler P r (State.init sm w)).sessions = sm.Delete t ∧
    (mailHandler P r (State.init sm w)).sessions.Get t = (Ptr.nil, false) ∧
    (∀ k, k ≠ t → (mailHandler P r (State.init sm w)).sessions.Get k = sm.Get k) ∧
    (∀ (w5 : P.World) (r2 : Request) (rest2 : List String),
      r2.Query "t" = some (t :: rest2) →
      mailHandler P r2 (State.init (mailHandler P r (State.init sm w)).sessions w5)
        = ⟨(mailHandler P r (State.init sm w)).sessions, w5,
           [Event.Lock, Event.MapRead t, Event.Unlock,
            Event.WriteHeader StatusRedirect "/"]⟩) := by
  rw [mailHandler_registered P sm w r t rest s hq hreg]
  have hv : (viewSession P t s ⟨sm, w, [Event.Lock, Event.MapRead t, Event.Unlock]⟩).sessions
        = sm.Delete t
      ∧ headers (viewSession P t s ⟨sm, w, [Event.Lock, Event.MapRead t, Event.Unlock]⟩).trace
        = [(StatusRedirect, "/")]
      ∧ writes (viewSession P t s ⟨sm, w, [Event.Lock, Event.MapRead t, Event.Unlock]⟩).trace
        = [] := by
    rcases hfail with hm | ⟨hm, hr | hr⟩
    · simp [viewSession, hE, hA, hM, hm, State.emit, State.Delete, headers, writes]
    · subst hm; subst hr
      simp [viewSession, hE, hA, hM, hR, State.emit, State.Delete, headers, writes]
    · subst hm
      simp [viewSession, hE, hA, hM, hR, hr, State.emit, State.Delete, headers, writes]
  obtain ⟨hs, hh, hw⟩ := hv
  refine ⟨hh, hw, hs, ?_, ?_, ?_⟩
  · rw [hs]; exact Get_Delete_same sm t
  · intro k hk; rw [hs]; exact Get_Delete_other sm t k hk
  · intro w5 r2 rest2 hq2
    rw [hs]
    exact mailHandler_not_found P (sm.Delete t) w5 r2 t rest2 hq2
      (by simp [SessionManager.Delete])

theorem mailHandler_provider_failure_witness :
    ((fun k => if k = "t" then some ["tok"] else none) "t" = some ("tok" :: [])
      ∧ ((SessionManager.empty Nat).Set "tok" (Ptr.ref 3)).Get "tok" = (Ptr.ref 3, true)
      ∧ (demo false false).Expired 3 (0 : Nat) = (false, (1 : Nat))
      ∧ (demo false false).Address 3 (1 : Nat) = ("box3@example.org", (2 : Nat))
      ∧ (demo false false).Messages 3 (2 : Nat) = (([], none), (3 : Nat))
      ∧ (demo false false).Renew 3 (3 : Nat) = ((false, none), (4 : Nat))
      ∧ ((none : Option String).isSome = true
          ∨ ((none : Option String) = none
              ∧ (false = false ∨ (none : Option String).isSome = true)))) ∧
    (mailHandler (demo false false) ⟨fun k => if k = "t" then some ["tok"] else none⟩
        (State.init ((SessionManager.empty Nat).Set "tok" (Ptr.ref 3)) (0 : Nat))).sessions.Get
      "tok" = (Ptr.nil, false) :=
  ⟨⟨by decide, by decide, rfl, by decide, rfl, rfl, Or.inr ⟨rfl, Or.inl rfl⟩⟩,
   (mailHandler_provider_failure (demo false false)
      ((SessionManager.empty Nat).Set "tok" (Ptr.ref 3))
      (0 : Nat) (1 : Nat) (2 : Nat) (3 : Nat) (4 : Nat)
      ⟨fun k => if k = "t" then some ["tok"] else none⟩ "tok" [] 3
      "box3@example.org" [] none none false
      (by decide) (by decide) rfl (by decide) rfl rfl (Or.inr ⟨rfl, Or.inl rfl⟩)).2.2.2.1⟩

/-! ## Rendering -/

theorem Join_eq_concatAll_intersperse (l : List String) (sep : String) :
    Join l sep = concatAll (l.intersperse sep) := by
  induction l with
  | nil => rfl
  | cons a l ih =>
    cases l with
    | nil => simp [Join, concatAll]
    | cons b l =>
      simp only [Join, List.intersperse, ih]
      simp [concatAll, String.append_assoc]

theorem count_intersperse (l : List String) (sep : String) (h : ∀ x ∈ l, x ≠ sep) :
    (l.intersperse sep).count sep = l.length - 1 := by
  induction l with
  | nil => rfl
  | cons a l ih =>
    cases l with
    | nil =>
      have : a ≠ sep := h a (by simp)
      simp [List.count_cons, this]
    | cons b l =>
      have ha : a ≠ sep := h a (by simp)
      have ih2 := ih (fun x hx => h x (List.mem_cons_of_mem a hx))
      rw [List.intersperse_cons₂, List.count_cons, List.count_cons, ih2]
      simp [ha]

theorem head_dropWhile_not {α : Type} (p : α → Bool) (l : List α) (c : α)
    (h : (l.dropWhile p).head? = some c) : p c = false := by
  induction l with
  | nil => simp at h
  | cons a l ih =>
    by_cases ha : p a = true
    · simp [List.dropWhile, ha] at h; exact ih h
    · simp [List.dropWhile, ha] at h; subst h; simpa using ha

/-- The model of `strings.TrimSpace` trims: it removes a white-space prefix and
a white-space suffix and leaves no white space at either end. -/
theorem TrimSpace_trims (s : String) : IsTrimOf (TrimSpace s) s := by
  have h2 : s.data.dropWhile IsSpace
      = ((s.data.dropWhile IsSpace).reverse.dropWhile IsSpace).reverse
        ++ ((s.data.dropWhile IsSpace).reverse.takeWhile IsSpace).reverse := by
    rw [← List.reverse_append, List.takeWhile_append_dropWhile, List.reverse_reverse]
  refine ⟨s.data.takeWhile IsSpace,
    ((s.data.dropWhile IsSpace).reverse.takeWhile IsSpace).reverse, ?_, ?_, ?_, ?_, ?_⟩
  · simp only [TrimSpace, String.toList]
    rw [List.append_assoc, ← h2]
    exact (List.takeWhile_append_dropWhile _ _).symm
  · intro c hc
    exact List.mem_takeWhile_imp hc
  · intro c hc
    exact List.mem_takeWhile_imp (List.mem_reverse.mp hc)
  · intro c hc
    simp only [TrimSpace, String.toList] at hc
    have h3 : (s.data.dropWhile IsSpace).head? = some c := by
      rw [h2]
      cases hm : ((s.data.dropWhile IsSpace).reverse.dropWhile IsSpace).reverse with
      | nil => rw [hm] at hc; simp at hc
      | cons x xs =>
        rw [hm] at hc
        simpa using hc
    exact head_dropWhile_not IsSpace _ c h3
  · intro c hc
    simp only [TrimSpace, String.toList, List.getLast?_reverse] at hc
    exact head_dropWhile_not IsSpace _ c hc

/-- A message block starts with `Sender: `, so it is never the delimiter. -/
theorem renderMessage_ne_delimiter {S : Type} (P : Provider S) (m : Message P.Time) :
    renderMessage P m ≠ "-----\n" := by
  intro h
  have := congrArg (fun x => x.data.head?) h
  simp [renderMessage] at this

/-- C7: for a token `t` registered to an unexpired session with address `a`
whose `Messages()` returns `ms` without error and whose `Renew()` returns
`(true, nil)`, the `/mail` handler writes no header (no redirect) and the page
body is `"# Mailbox\n\n"`, `"Your address is: a.\n\n"`, `"It will expire on
E.\n\n"` with `E` the RFC822 UTC rendering of `ExpiresAt()` read in the world
left by the renewal, `"## Messages\n\n"`, then `"Nothing here yet.\n\n"` when
`ms` is empty and otherwise a fence, the message blocks (sender, sent date,
subject, plaintext with leading and trailing white space trimmed) in the
provider's order joined by `"-----\n"` (the blocks interleaved with exactly
`ms.length - 1` delimiters) and a closing fence, and last the self-link
`"=> mail?t=t Reload this page"`; the session calls are `Expired`, `Address`,
`Messages`, `Renew`, `ExpiresAt` in this order and the registry is unchanged. -/
theorem mailHandler_renders_page {S : Type} (P : Provider S) (sm : SessionManager S)
    (w w1 w2 w3 w4 w5 : P.World) (r : Request) (t : String) (rest : List String) (s : S)
    (a : String) (ms : List (Message P.Time)) (e : P.Time)
    (hq : r.Query "t" = some (t :: rest)) (hreg : sm.Get t = (Ptr.ref s, true))
    (hE : P.Expired s w = (false, w1)) (hA : P.Address s w1 = (a, w2))
    (hM : P.Messages s w2 = ((ms, none), w3)) (hR : P.Renew s w3 = ((true, none), w4))
    (hX : P.ExpiresAt s w4 = (e, w5)) :
    headers (mailHandler P r (State.init sm w)).trace = [] ∧
    body (mailHandler P r (State.init sm w)).trace
      = "# Mailbox\n\n"
        ++ ("Your address is: " ++ a ++ ".\n\n")
        ++ ("It will expire on " ++ P.RFC822UTC e ++ ".\n\n")
        ++ "## Messages\n\n"
        ++ (if ms.isEmpty then "Nothing here yet.\n\n"
            else "```\n" ++ Join (ms.map (renderMessage P)) "-----\n" ++ "```\n")
        ++ ("=> mail?t=" ++ t ++ " Reload this page") ∧
    (∀ m : Message P.Time, ∃ b : String,
      renderMessage P m
        = ("Sender: " ++ m.Sender ++ "\n") ++ ("At: " ++ P.RFC822UTC m.SentDate ++ "\n")
          ++ ("Subject: " ++ m.Subject ++ "\n") ++ ("Body: " ++ b ++ "\n")
      ∧ IsTrimOf b m.Plaintext) ∧
    Join (ms.map (renderMessage P)) "-----\n"
      = concatAll ((ms.map (renderMessage P)).intersperse "-----\n") ∧
    ((ms.map (renderMessage P)).intersperse "-----\n").count "-----\n" = ms.length - 1 ∧
    sessionCalls (mailHandler P r (State.init sm w)).trace
      = [Event.Expired s, Event.Address s, Event.Messages s, Event.Renew s,
         Event.ExpiresAt s] ∧
    (mailHandler P r (State.init sm w)).sessions = sm ∧
    (mailHandler P r (State.init sm w)).sessions.Get t = (Ptr.ref s, true) := by
  rw [mailHandler_registered P sm w r t rest s hq hreg]
  have hcount : ((ms.map (renderMessage P)).intersperse "-----\n").count "-----\n"
      = ms.length - 1 := by
    rw [count_intersperse]
    · simp
    · intro x hx
      obtain ⟨m, _, rfl⟩ := List.mem_map.mp hx
      exact renderMessage_ne_delimiter P m
  refine ⟨?_, ?_, fun m => ⟨TrimSpace m.Plaintext, rfl, TrimSpace_trims _⟩,
    Join_eq_concatAll_intersperse _ _, hcount, ?_, ?_, ?_⟩
  · cases ms <;>
      simp [viewSession, hE, hA, hM, hR, hX, State.emit, headers]
  · have hw : writes (viewSession P t s
          ⟨sm, w, [Event.Lock, Event.MapRead t, Event.Unlock]⟩).trace
        = ["# Mailbox\n\n", "Your address is: " ++ a ++ ".\n\n",
           "It will expire on " ++ P.RFC822UTC e ++ ".\n\n", "## Messages\n\n"]
          ++ (if ms.isEmpty then ["Nothing here yet.\n\n"]
              else ["```\n", Join (ms.map (renderMessage P)) "-----\n", "```\n"])
          ++ ["=> mail?t=" ++ t ++ " Reload this page"] := by
      cases ms <;>
        simp [viewSession, hE, hA, hM, hR, hX, State.emit, writes]
    rw [body, hw]
    cases ms <;>
      simp only [List.isEmpty, if_true, if_false, Bool.false_eq_true, concatAll,
        List.cons_append, List.nil_append, List.foldr, String.append_assoc,
        String.append_empty]
  · cases ms <;>
      simp [viewSession, hE, hA, hM, hR, hX, State.emit, sessionCalls, Event.isSessionCall]
  · cases ms <;>
      simp [viewSession, hE, hA, hM, hR, hX, State.emit]
  · cases ms <;>
      simp [viewSession, hE, hA, hM, hR, hX, State.emit, hreg]

theorem mailHandler_renders_page_witness :
    ((fun k => if k = "t" then some ["tok"] else none) "t" = some ("tok" :: [])
      ∧ ((SessionManager.empty Nat).Set "tok" (Ptr.ref 4)).Get "tok" = (Ptr.ref 4, true)
      ∧ (demo false false).Expired 4 (0 : Nat) = (false, (1 : Nat))
      ∧ (demo false false).Address 4 (1 : Nat) = ("box4@example.org", (2 : Nat))
      ∧ (demo false false).Messages 4 (2 : Nat)
          = (([⟨"alice@example.org", (10 : Nat), "Hi", "  hello \n"⟩,
               ⟨"bob@example.org", (20 : Nat), "Re: Hi", "-----\n"⟩], none), (3 : Nat))
      ∧ (demo false false).Renew 4 (3 : Nat) = ((true, none), (4 : Nat))
      ∧ (demo false false).ExpiresAt 4 (4 : Nat) = ((604 : Nat), (5 : Nat))) ∧
    headers (mailHandler (demo false false)
        ⟨fun k => if k = "t" then some ["tok"] else none⟩
        (State.init ((SessionManager.empty Nat).Set "tok" (Ptr.ref 4)) (0 : Nat))).trace = [] :=
  ⟨⟨by decide, by decide, rfl, by decide, rfl, rfl, rfl⟩,
   (mailHandler_renders_page (demo false false)
      ((SessionManager.empty Nat).Set "tok" (Ptr.ref 4))
      (0 : Nat) (1 : Nat) (2 : Nat) (3 : Nat) (4 : Nat) (5 : Nat)
      ⟨fun k => if k = "t" then some ["tok"] else none⟩ "tok" [] 4
      "box4@example.org"
      [⟨"alice@example.org", (10 : Nat), "Hi", "  hello \n"⟩,
       ⟨"bob@example.org", (20 : Nat), "Re: Hi", "-----\n"⟩] (604 : Nat)
      (by decide) (by decide) rfl (by decide) rfl rfl rfl).1⟩

/-- The page the example provider's session `4` renders: two blocks, one
delimiter between them, bodies trimmed. -/
theorem demo_page :
    body (mailHandler (demo false false)
        ⟨fun k => if k = "t" then some ["tok"] else none⟩
        (State.init ((SessionManager.empty Nat).Set "tok" (Ptr.ref 4)) (0 : Nat))).trace
      = "# Mailbox\n\nYour address is: box4@example.org.\n\nIt will expire on T+604.\n\n"
        ++ "## Messages\n\n```\n"
        ++ "Sender: alice@example.org\nAt: T+10\nSubject: Hi\nBody: hello\n"
        ++ "-----\n"
        ++ "Sender: bob@example.org\nAt: T+20\nSubject: Re: Hi\nBody: -----\n"
        ++ "```\n=> mail?t=tok Reload this page" := by
  rfl

/-! ## Reachable registries -/

theorem hexByte_length (b : Fin 256) : (hexByte b).length = 2 := rfl

/-- The string form of a UUID has 36 characters. -/
theorem UUID_String_length (u : UUID) : u.String.length = 36 := by
  have h1 : ("-" : String).length = 1 := rfl
  simp [UUID.String, String.length_append, hexByte_length, h1]

/-- The registry a `viewSession` run leaves is the one it found, or that one
with the token deleted. -/
theorem viewSession_sessions {S : Type} (P : Provider S) (t : String) (s : S) (st : State P) :
    (viewSession P t s st).sessions = st.sessions
      ∨ (viewSession P t s st).sessions = st.sessions.Delete t := by
  unfold viewSession
  simp only []
  split_ifs <;> simp [State.emit, State.Delete]

/-- The registry a `/mail` request leaves is the one it found, or that one
with the request's token deleted. -/
theorem mailHandler_sessions {S : Type} (P : Provider S) (r : Request) (st : State P) :
    (mailHandler P r st).sessions = st.sessions
      ∨ ∃ t, (mailHandler P r st).sessions = st.sessions.Delete t := by
  unfold mailHandler
  split
  · left; rfl
  · left; rfl
  · rename_i t rest _
    by_cases hg : (st.sessions.Get t).2 = true
    · simp only [State.Get, hg]
      cases hp : (st.sessions.Get t).1 with
      | nil => left; simp [State.emit]
      | ref s =>
        rcases viewSession_sessions P t s
          (st.emit [Event.Lock, Event.MapRead t, Event.Unlock]) with h | h
        · left; simpa [State.emit] using h
        · right; exact ⟨t, by simpa [State.emit] using h⟩
    · left; simp [State.Get, hg, State.emit]

/-- Every key of a reachable registry is the string form of a UUID. -/
theorem Reachable_keys {S : Type} (P : Provider S) (sm : SessionManager S)
    (h : Reachable P sm) : ∀ k p, sm.store k = some p → ∃ u : UUID, k = u.String := by
  induction h with
  | empty => intro k p hk; simp [SessionManager.empty] at hk
  | new sm w _ ih =>
    intro k p hk
    rw [newHandler_sessions] at hk
    by_cases hkey : k = (P.NewV4 w).1.1.String
    · exact ⟨_, hkey⟩
    · simp [SessionManager.Set, State.init, hkey] at hk
      exact ih k p hk
  | mail sm r w _ ih =>
    intro k p hk
    rcases mailHandler_sessions P r (State.init sm w) with h | ⟨t, h⟩
    · rw [h] at hk; exact ih k p hk
    · rw [h] at hk
      by_cases hkey : k = t
      · simp [SessionManager.Delete, hkey] at hk
      · simp [SessionManager.Delete, State.init, hkey] at hk
        exact ih k p hk

/-- C6: in every reachable registry, a `/mail` request whose `t` parameter is
absent, whose first `t` value is the empty string, or whose first `t` value is
not registered gets exactly a redirect to `"/"` and no body, calls no session
method and leaves the registry unchanged; the empty string is not a registered
token, because every registered key is the 36-character string form of a
UUID. -/
theorem mailHandler_unknown_token {S : Type} (P : Provider S) (sm : SessionManager S)
    (hreach : Reachable P sm) (w : P.World) (r : Request)
    (hreq : r.Query "t" = none
      ∨ (∃ rest, r.Query "t" = some ("" :: rest))
      ∨ (∃ t rest, r.Query "t" = some (t :: rest) ∧ (sm.Get t).2 = false)) :
    headers (mailHandler P r (State.init sm w)).trace = [(StatusRedirect, "/")] ∧
    writes (mailHandler P r (State.init sm w)).trace = [] ∧
    sessionCalls (mailHandler P r (State.init sm w)).trace = [] ∧
    (mailHandler P r (State.init sm w)).sessions = sm ∧
    sm.Get "" = (Ptr.nil, false) ∧
    (∀ k p, sm.store k = some p → (∃ u : UUID, k = u.String) ∧ k.length = 36) := by
  have hkeys : ∀ k p, sm.store k = some p → (∃ u : UUID, k = u.String) ∧ k.length = 36 := by
    intro k p hk
    obtain ⟨u, hu⟩ := Reachable_keys P sm hreach k p hk
    exact ⟨⟨u, hu⟩, by rw [hu]; exact UUID_String_length u⟩
  have hempty : sm.store "" = none := by
    cases hs : sm.store "" with
    | none => rfl
    | some p =>
      have := (hkeys "" p hs).2
      simp at this
  have hnf : ∀ t rest, r.Query "t" = some (t :: rest) → sm.store t = none →
      headers (mailHandler P r (State.init sm w)).trace = [(StatusRedirect, "/")] ∧
      writes (mailHandler P r (State.init sm w)).trace = [] ∧
      sessionCalls (mailHandler P r (State.init sm w)).trace = [] ∧
      (mailHandler P r (State.init sm w)).sessions = sm := by
    intro t rest hq hst
    rw [mailHandler_not_found P sm w r t rest hq hst]
    simp [headers, writes, sessionCalls, Event.isSessionCall]
  have hmain : headers (mailHandler P r (State.init sm w)).trace = [(StatusRedirect, "/")] ∧
      writes (mailHandler P r (State.init sm w)).trace = [] ∧
      sessionCalls (mailHandler P r (State.init sm w)).trace = [] ∧
      (mailHandler P r (State.init sm w)).sessions = sm := by
    rcases hreq with hq | ⟨rest, hq⟩ | ⟨t, rest, hq, hg⟩
    · simp [mailHandler, hq, State.init, State.emit, headers, writes, sessionCalls,
        Event.isSessionCall]
    · exact hnf "" rest hq hempty
    · exact hnf t rest hq (store_of_Get_false sm t hg)
  exact ⟨hmain.1, hmain.2.1, hmain.2.2.1, hmain.2.2.2, Get_of_store_none sm "" hempty, hkeys⟩

theorem mailHandler_unknown_token_witness :
    (Reachable (demo false false)
        (newHandler (demo false false) (State.init (SessionManager.empty Nat) (3 : Nat))).sessions
      ∧ ((fun k => if k = "t" then some ["doesnotexist"] else none) "t" = none
          ∨ (∃ rest, (fun k => if k = "t" then some ["doesnotexist"] else none) "t"
                = some ("" :: rest))
          ∨ (∃ t rest, (fun k => if k = "t" then some ["doesnotexist"] else none) "t"
                = some (t :: rest)
              ∧ ((newHandler (demo false false)
                    (State.init (SessionManager.empty Nat) (3 : Nat))).sessions.Get t).2
                  = false))) ∧
    headers (mailHandler (demo false false)
        ⟨fun k => if k = "t" then some ["doesnotexist"] else none⟩
        (State.init (newHandler (demo false false)
          (State.init (SessionManager.empty Nat) (3 : Nat))).sessions (9 : Nat))).trace
      = [(StatusRedirect, "/")] :=
  ⟨⟨Reachable.new _ _ Reachable.empty,
    Or.inr (Or.inr ⟨"doesnotexist", [], by decide, by decide⟩)⟩,
   (mailHandler_unknown_token (demo false false) _ (Reachable.new _ _ Reachable.empty)
      (9 : Nat) ⟨fun k => if k = "t" then some ["doesnotexist"] else none⟩
      (Or.inr (Or.inr ⟨"doesnotexist", [], by decide, by decide⟩))).1⟩

/-! ## The error branches of `/new` -/

/-- C1, the code at a failing input: the generator succeeds and `tmm.New`
fails with a nil session.  The handler writes the server-error header, then
still calls `sessions.Set` with the nil pointer and writes the redirect header;
the registry, empty before, now holds a nil entry under the new token, this
registry is reachable, and a `/mail` request for that token finds the entry
and calls a method through nil. -/
theorem newHandler_failed_provision_still_registers :
    (demo false true).NewV4 (0 : Nat) = ((demoUUID 0, none), (1 : Nat)) ∧
    (demo false true).New (1 : Nat) = ((Ptr.nil, some "provider down"), (2 : Nat)) ∧
    (demoUUID 0).String = "00010203-0405-0607-0809-0a0b0c0d0e0f" ∧
    (newHandler (demo false true) (State.init (SessionManager.empty Nat) (0 : Nat))).trace
      = [Event.NewV4, Event.New, Event.Log "error: provider down",
         Event.WriteHeader StatusCGIError "Unexpected error",
         Event.Lock, Event.MapWrite "00010203-0405-0607-0809-0a0b0c0d0e0f" Ptr.nil,
         Event.Unlock,
         Event.WriteHeader StatusRedirect "/mail?t=00010203-0405-0607-0809-0a0b0c0d0e0f"] ∧
    (SessionManager.empty Nat).Get "00010203-0405-0607-0809-0a0b0c0d0e0f" = (Ptr.nil, false) ∧
    (newHandler (demo false true)
        (State.init (SessionManager.empty Nat) (0 : Nat))).sessions.Get
      "00010203-0405-0607-0809-0a0b0c0d0e0f" = (Ptr.nil, true) ∧
    Reachable (demo false true)
      (newHandler (demo false true) (State.init (SessionManager.empty Nat) (0 : Nat))).sessions ∧
    (mailHandler (demo false true)
        ⟨fun k => if k = "t" then some ["00010203-0405-0607-0809-0a0b0c0d0e0f"] else none⟩
        (State.init (newHandler (demo false true)
          (State.init (SessionManager.empty Nat) (0 : Nat))).sessions (2 : Nat))).trace
      = [Event.Lock, Event.MapRead "00010203-0405-0607-0809-0a0b0c0d0e0f", Event.Unlock,
         Event.NilDeref] :=
  ⟨rfl, rfl, by decide, by decide, by decide, by decide,
   Reachable.new _ _ Reachable.empty, by decide⟩

/-- C2, the code at a failing input: `uuid.NewV4` fails and returns the zero
UUID.  The handler writes the server-error header, then still calls `tmm.New`,
stores the new session under the string form of the zero UUID and writes the
redirect header; the registry after the request differs from the registry
before it. -/
theorem newHandler_failed_token_still_registers :
    (demo true false).NewV4 (0 : Nat) = ((UUID.Nil, some "no entropy"), (1 : Nat)) ∧
    (demo true false).New (1 : Nat) = ((Ptr.ref 1, none), (2 : Nat)) ∧
    UUID.Nil.String = "00000000-0000-0000-0000-000000000000" ∧
    (newHandler (demo true false) (State.init (SessionManager.empty Nat) (0 : Nat))).trace
      = [Event.NewV4, Event.Log "error: no entropy",
         Event.WriteHeader StatusCGIError "Unexpected error", Event.New,
         Event.Lock, Event.MapWrite "00000000-0000-0000-0000-000000000000" (Ptr.ref 1),
         Event.Unlock,
         Event.WriteHeader StatusRedirect "/mail?t=00000000-0000-0000-0000-000000000000"] ∧
    (SessionManager.empty Nat).Get "00000000-0000-0000-0000-000000000000" = (Ptr.nil, false) ∧
    (newHandler (demo true false)
        (State.init (SessionManager.empty Nat) (0 : Nat))).sessions.Get
      "00000000-0000-0000-0000-000000000000" = (Ptr.ref 1, true) :=
  ⟨rfl, rfl, by decide, by decide, by decide, by decide⟩

/-! ## Requests without a token value -/

/-- C10 as stated fails: a request whose first `t` value is the empty string
does reach the registry.  On the empty registry the handler performs a
`Get("")` before redirecting; on a registry holding a healthy session under
the empty-string key it finds the session, calls its methods and renders the
page instead of redirecting. -/
theorem empty_token_reaches_registry :
    (mailHandler (demo false false) ⟨fun k => if k = "t" then some [""] else none⟩
        (State.init (SessionManager.empty Nat) (0 : Nat))).trace
      = [Event.Lock, Event.MapRead "", Event.Unlock, Event.WriteHeader StatusRedirect "/"] ∧
    headers (mailHandler (demo false false) ⟨fun k => if k = "t" then some [""] else none⟩
        (State.init ((SessionManager.empty Nat).Set "" (Ptr.ref 0)) (0 : Nat))).trace = [] ∧
    sessionCalls (mailHandler (demo false false)
        ⟨fun k => if k = "t" then some [""] else none⟩
        (State.init ((SessionManager.empty Nat).Set "" (Ptr.ref 0)) (0 : Nat))).trace
      = [Event.Expired 0, Event.Address 0, Event.Messages 0, Event.Renew 0,
         Event.ExpiresAt 0] ∧
    writes (mailHandler (demo false false) ⟨fun k => if k = "t" then some [""] else none⟩
        (State.init ((SessionManager.empty Nat).Set "" (Ptr.ref 0)) (0 : Nat))).trace
      = ["# Mailbox\n\n", "Your address is: box0@example.org.\n\n",
         "It will expire on T+604.\n\n", "## Messages\n\n", "Nothing here yet.\n\n",
         "=> mail?t= Reload this page"] :=
  ⟨by decide, by decide, by decide, by rfl⟩

/-- Once a first `t` value is present, the handler starts with a `Get` on it. -/
theorem mailHandler_starts_with_Get {S : Type} (P : Provider S) (sm : SessionManager S)
    (w : P.World) (r : Request) (t : String) (rest : List String)
    (hq : r.Query "t" = some (t :: rest)) :
    ∃ tail, (mailHandler P r (State.init sm w)).trace
      = [Event.Lock, Event.MapRead t, Event.Unlock] ++ tail := by
  unfold mailHandler
  simp only [hq, State.Get, State.init, State.emit, List.nil_append]
  split
  · exact ⟨_, rfl⟩
  · split
    · exact ⟨_, rfl⟩
    · unfold viewSession
      simp only []
      split_ifs <;> exact ⟨_, by simp [State.emit, State.Delete]; rfl⟩

/-- C10, amended: a `/mail` request whose `t` parameter is absent (or present
with no value at all) is redirected to `"/"` with no registry access and no
session call, and the trace is the same for every two registries.  A request
whose first `t` value is the empty string performs a `Get("")`; it is
redirected to `"/"`, with no session call and the registry unchanged, whenever
the empty string is not a registered key, and that is so in every reachable
registry. -/
theorem mailHandler_no_token_value {S : Type} (P : Provider S) (sm sm2 : SessionManager S)
    (w : P.World) (r : Request) :
    ((r.Query "t" = none ∨ r.Query "t" = some []) →
      mailHandler P r (State.init sm w) = ⟨sm, w, [Event.WriteHeader StatusRedirect "/"]⟩
      ∧ (mailHandler P r (State.init sm2 w)).trace
          = (mailHandler P r (State.init sm w)).trace) ∧
    (∀ rest, r.Query "t" = some ("" :: rest) →
      (∃ tail, (mailHandler P r (State.init sm w)).trace
          = [Event.Lock, Event.MapRead "", Event.Unlock] ++ tail)
      ∧ (sm.store "" = none ∨ Reachable P sm →
          mailHandler P r (State.init sm w)
            = ⟨sm, w, [Event.Lock, Event.MapRead "", Event.Unlock,
                       Event.WriteHeader StatusRedirect "/"]⟩)) := by
  constructor
  · intro hq
    rcases hq with hq | hq <;> simp [mailHandler, hq, State.init, State.emit]
  · intro rest hq
    refine ⟨mailHandler_starts_with_Get P sm w r "" rest hq, ?_⟩
    intro h
    have hempty : sm.store "" = none := by
      rcases h with h | h
      · exact h
      · cases hs : sm.store "" with
        | none => rfl
        | some p =>
          obtain ⟨u, hu⟩ := Reachable_keys P sm h "" p hs
          have := UUID_String_length u
          rw [← hu] at this
          simp at this
    exact mailHandler_not_found P sm w r "" rest hq hempty

theorem mailHandler_no_token_value_witness :
    (((fun (_ : String) => (none : Option (List String))) "t" = none
        ∨ (fun (_ : String) => (none : Option (List String))) "t" = some [])
      ∧ (fun k => if k = "t" then some [""] else none) "t" = some ("" :: [])
      ∧ ((SessionManager.empty Nat).store "" = none
          ∨ Reachable (demo false false) (SessionManager.empty Nat))) ∧
    (mailHandler (demo false false) ⟨fun _ => none⟩
        (State.init ((SessionManager.empty Nat).Set "" (Ptr.ref 0)) (0 : Nat))
      = ⟨(SessionManager.empty Nat).Set "" (Ptr.ref 0), (0 : Nat),
         [Event.WriteHeader StatusRedirect "/"]⟩) ∧
    (mailHandler (demo false false) ⟨fun k => if k = "t" then some [""] else none⟩
        (State.init (SessionManager.empty Nat) (0 : Nat))
      = ⟨SessionManager.empty Nat, (0 : Nat),
         [Event.Lock, Event.MapRead "", Event.Unlock,
          Event.WriteHeader StatusRedirect "/"]⟩) :=
  ⟨⟨Or.inl rfl, by decide, Or.inl rfl⟩,
   ((mailHandler_no_token_value (demo false false)
      ((SessionManager.empty Nat).Set "" (Ptr.ref 0)) (SessionManager.empty Nat) (0 : Nat)
      ⟨fun _ => none⟩).1 (Or.inl rfl)).1,
   ((mailHandler_no_token_value (demo false false)
      (SessionManager.empty Nat) (SessionManager.empty Nat) (0 : Nat)
      ⟨fun k => if k = "t" then some [""] else none⟩).2 [] (by decide)).2 (Or.inl rfl)⟩

/-! ## The mutex -/

theorem newHandler_lockDiscipline {S : Type} (P : Provider S) (sm : SessionManager S)
    (w : P.World) : lockDiscipline false (newHandler P (State.init sm w)).trace = true := by
  cases h1 : (P.NewV4 w).1.2 <;>
    cases h2 : (P.New (P.NewV4 w).2).1.2 <;>
    simp [newHandler, reportError, State.init, State.emit, State.Set, lockDiscipline,
      Event.isMapAccess, h1, h2]

theorem viewSession_lockDiscipline {S : Type} (P : Provider S) (t : String) (s : S)
    (sm : SessionManager S) (w : P.World) :
    lockDiscipline false
      (viewSession P t s ⟨sm, w, [Event.Lock, Event.MapRead t, Event.Unlock]⟩).trace = true := by
  unfold viewSession
  simp only []
  split_ifs <;>
    simp [State.emit, State.Delete, lockDiscipline, Event.isMapAccess]

theorem mailHandler_lockDiscipline {S : Type} (P : Provider S) (sm : SessionManager S)
    (w : P.World) (r : Request) :
    lockDiscipline false (mailHandler P r (State.init sm w)).trace = true := by
  unfold mailHandler
  split
  · simp [State.init, State.emit, lockDiscipline, Event.isMapAccess]
  · simp [State.init, State.emit, lockDiscipline, Event.isMapAccess]
  · rename_i t rest _
    simp only [State.Get, State.init, State.emit, List.nil_append]
    split
    · simp [lockDiscipline, Event.isMapAccess]
    · split
      · simp [lockDiscipline, Event.isMapAccess]
      · exact viewSession_lockDiscipline P t _ sm w

theorem thread_cons {S : Type} (i j : Nat) (e : Event S) (σ : Schedule S) :
    Schedule.thread ((i, e) :: σ) j
      = if i = j then e :: Schedule.thread σ j else Schedule.thread σ j := by
  by_cases h : i = j <;> simp [Schedule.thread, List.filter_cons, h]

/-- If every request of a schedule keeps the lock discipline, counted from who
owns the mutex now, and the schedule respects the mutex, then the schedule is
exclusive. -/
theorem exclusive_of_discipline {S : Type} (σ : Schedule S) :
    ∀ owner : Option Nat,
      (∀ i, lockDiscipline (owner == some i) (Schedule.thread σ i) = true) →
      mutexRespected owner σ = true → exclusive owner σ = true := by
  induction σ with
  | nil => intro owner _ _; rfl
  | cons x σ ih =>
    obtain ⟨i, e⟩ := x
    intro owner hinv hmx
    have hi := hinv i
    rw [thread_cons, if_pos rfl] at hi
    have hother : ∀ j, j ≠ i →
        lockDiscipline (owner == some j) (Schedule.thread σ j) = true := by
      intro j hj
      have := hinv j
      rw [thread_cons, if_neg (Ne.symm hj)] at this
      exact this
    cases e with
    | Lock =>
      simp only [mutexRespected, Bool.and_eq_true, Option.isNone_iff_eq_none] at hmx
      obtain ⟨hnone, hmx⟩ := hmx
      subst hnone
      simp only [exclusive]
      apply ih (some i) _ hmx
      intro j
      by_cases hj : j = i
      · subst hj
        simpa [lockDiscipline] using hi
      · have := hother j hj
        have hne : (some i == some j) = false := by simp [Ne.symm hj]
        rw [hne]
        simpa using this
    | Unlock =>
      simp only [mutexRespected] at hmx
      simp only [lockDiscipline, Bool.and_eq_true] at hi
      obtain ⟨hheld, hrest⟩ := hi
      have howner : owner = some i := by simpa using hheld
      subst howner
      simp only [exclusive]
      apply ih none _ hmx
      intro j
      by_cases hj : j = i
      · subst hj
        simpa using hrest
      · have := hother j hj
        have hne : (some i == some j) = false := by simp [Ne.symm hj]
        rw [hne] at this
        simpa using this
    | _ =>
      simp only [mutexRespected] at hmx
      simp only [lockDiscipline, Bool.and_eq_true, Event.isMapAccess] at hi
      obtain ⟨hheld, hrest⟩ := hi
      simp only [exclusive, Event.isMapAccess, Event.isProviderCall, Bool.and_eq_true]
      refine ⟨?_, ih owner ?_ hmx⟩
      · simp at hheld ⊢ <;> simp [hheld]
      · intro j
        by_cases hj : j = i
        · subst hj; exact hrest
        · exact hother j hj

/-- C9: in the trace of every `/new` and every `/mail` request the lock
discipline holds: each map read, write and delete happens while the mutex is
held, the mutex is held only there (every provider call, log line and response
write happens while it is released), and the request ends with the mutex
released.  Hence in every concurrent schedule whose requests are handler runs
and in which a `Lock` goes through only when the mutex is free, every map
access is made by the one request owning the mutex, and no request calls the
external provider while it owns the mutex. -/
theorem registry_lock_discipline {S : Type} :
    (∀ (P : Provider S) (sm : SessionManager S) (w : P.World),
      lockDiscipline false (newHandler P (State.init sm w)).trace = true) ∧
    (∀ (P : Provider S) (sm : SessionManager S) (w : P.World) (r : Request),
      lockDiscipline false (mailHandler P r (State.init sm w)).trace = true) ∧
    (∀ σ : Schedule S,
      (∀ i, Schedule.thread σ i = [] ∨
        ∃ (P : Provider S) (sm : SessionManager S) (w : P.World),
          Schedule.thread σ i = (newHandler P (State.init sm w)).trace ∨
          ∃ r, Schedule.thread σ i = (mailHandler P r (State.init sm w)).trace) →
      mutexRespected none σ = true → exclusive none σ = true) := by
  refine ⟨newHandler_lockDiscipline, mailHandler_lockDiscipline, ?_⟩
  intro σ hthreads hmx
  apply exclusive_of_discipline σ none _ hmx
  intro i
  have hfalse : ((none : Option Nat) == some i) = false := rfl
  rw [hfalse]
  rcases hthreads i with h | ⟨P, sm, w, h | ⟨r, h⟩⟩
  · rw [h]; rfl
  · rw [h]; exact newHandler_lockDiscipline P sm w
  · rw [h]; exact mailHandler_lockDiscipline P sm w r

theorem registry_lock_discipline_witness :
    ((∀ i, Schedule.thread demoSchedule i = [] ∨
        ∃ (P : Provider Nat) (sm : SessionManager Nat) (w : P.World),
          Schedule.thread demoSchedule i = (newHandler P (State.init sm w)).trace ∨
          ∃ r, Schedule.thread demoSchedule i = (mailHandler P r (State.init sm w)).trace)
      ∧ mutexRespected none demoSchedule = true) ∧
    exclusive none demoSchedule = true :=
  have hthreads : ∀ i, Schedule.thread demoSchedule i = [] ∨
      ∃ (P : Provider Nat) (sm : SessionManager Nat) (w : P.World),
        Schedule.thread demoSchedule i = (newHandler P (State.init sm w)).trace ∨
        ∃ r, Schedule.thread demoSchedule i = (mailHandler P r (State.init sm w)).trace :=
    fun i =>
      match i with
      | 0 => Or.inr ⟨demo false false, SessionManager.empty Nat, (3 : Nat), Or.inl (by decide)⟩
      | 1 => Or.inr ⟨demo false false, SessionManager.empty Nat, (0 : Nat),
          Or.inr ⟨⟨fun k => if k = "t" then some ["x"] else none⟩, by decide⟩⟩
      | _ + 2 => Or.inl (by simp [Schedule.thread, demoSchedule])
  ⟨⟨hthreads, by decide⟩,
   registry_lock_discipline.2.2 demoSchedule hthreads (by decide)⟩

end Geminimail
